import Mathlib

/-!
Verification development for the brigade-api server
(`src/brigade-api/cmd/brigade-api/main.go`).

The visible source is the route/bootstrap file `main.go`; the resource
handlers and the project/build aggregator live in the imported package
`github.com/Azure/brigade/pkg/api`, which is part of the repository but is
not under `src/`.  Definitions for that package are therefore modelled from
the specification and carry a doc comment starting `Modelled from the
spec:`.  Everything else (route wiring, the NCSA access-log filter, the
go-restful filter-chain and CORS semantics that `main.go` relies on, the
bootstrap defaults) is embedded from the source.
-/

/-! ## Data model -/

/-- A project record: identifier plus repository metadata (the further
fields of `brigade.Project` are irrelevant to the claims). -/
structure Project where
  id : String
  repo : String
deriving DecidableEq, Repr

/-- A build record: identifier, owning project identifier and creation
timestamp (modelled as a natural number of nanoseconds, the way Go
`time.Time` instants compare). -/
structure Build where
  id : String
  projectID : String
  createdAt : Nat
deriving DecidableEq, Repr

/-- `buildAfter a b` states that build `a` is strictly later than build
`b` in the "latest build" order: by creation timestamp, ties broken by
identifier lexical order. -/
def buildAfter (a b : Build) : Prop :=
  b.createdAt < a.createdAt ∨ (b.createdAt = a.createdAt ∧ b.id < a.id)

instance (a b : Build) : Decidable (buildAfter a b) := by
  unfold buildAfter; infer_instance

/-- Select the latest build of a list: the maximal element in the
`buildAfter` order, or `none` for the empty list. -/
def latestBuild : List Build → Option Build
  | [] => none
  | b :: bs => some (bs.foldl (fun best x => if buildAfter x best then x else best) b)

/-- Result of looking up the latest build for one project:
the lookup itself failed, the project has no builds, or the latest build. -/
inductive BuildLookup where
  | lookupFailed (msg : String)
  | noBuild
  | latest (b : Build)
deriving DecidableEq, Repr

/-- Derived summary pairing one project with its latest-build lookup
result. -/
structure ProjectBuildSummary where
  project : Project
  lastBuild : BuildLookup
deriving DecidableEq, Repr

/-- Modelled from the spec: the Resource Reader interface consumed by the
Aggregator (`pkg/api` and `pkg/storage` are not under `src/`): a fallible
project listing and a fallible per-project build listing. -/
structure Store where
  listProjects : Except String (List Project)
  listBuilds : String → Except String (List Build)

/-- The latest-build lookup applied to a successfully listed build list. -/
def buildLookupOf (bs : List Build) : BuildLookup :=
  match latestBuild bs with
  | none => BuildLookup.noBuild
  | some b => BuildLookup.latest b

/-- Modelled from the spec: the Aggregator step for one project — fetch the
project's builds; a failure is recorded per project, otherwise the latest
build (or "no build") is attached. -/
def summarizeProject (s : Store) (p : Project) : ProjectBuildSummary :=
  match s.listBuilds p.id with
  | Except.error e => ⟨p, BuildLookup.lookupFailed e⟩
  | Except.ok bs => ⟨p, buildLookupOf bs⟩

/-- Modelled from the spec: `Summarize()` — fetch all projects (the only
call whose failure aborts the request), then emit one summary per project
in listing order. -/
def Summarize (s : Store) : Except String (List ProjectBuildSummary) :=
  match s.listProjects with
  | Except.error e => Except.error e
  | Except.ok ps => Except.ok (ps.map (summarizeProject s))

/-- Modelled from the spec: the HTTP status of the
`GET /v1/projects-build` route — 200 when `Summarize` succeeds, a 5xx
error when the project listing fails. -/
def listWithLatestBuildStatus (s : Store) : Nat :=
  match Summarize s with
  | Except.ok _ => 200
  | Except.error _ => 500

/-! ## By-id read outcomes (spec §4.2, §6, §7) -/

/-- Outcome of a by-id read against the Resource Reader: the record, a
domain "not found" signal, or a backend failure (connectivity, auth,
internal error). -/
inductive ReadOutcome (α : Type) where
  | found (a : α)
  | notFound
  | backendError (msg : String)
deriving DecidableEq, Repr

/-- Modelled from the spec: the status mapping of the by-id handler
operations in `pkg/api` (not under `src/`) — found is 200, a missing id is
404, a Resource Reader failure is surfaced as a 5xx error. -/
def statusFor {α : Type} : ReadOutcome α → Nat
  | ReadOutcome.found _ => 200
  | ReadOutcome.notFound => 404
  | ReadOutcome.backendError _ => 500

/-- The class of an HTTP status code (2 for 2xx, 4 for 4xx, 5 for 5xx). -/
def statusClass (status : Nat) : Nat := status / 100

/-! ## Requests, responses and the access-log line -/

/-- The parts of an HTTP request read by `main.go`: method, remote
address, the userinfo username of the URL (`none` models `URL.User ==
nil`), request URI, protocol, and the two CORS-relevant headers (`""`
models an absent header, the way Go `Header.Get` reports it). -/
structure HttpRequest where
  method : String
  remoteAddr : String
  urlUsername : Option String
  requestURI : String
  proto : String
  originHeader : String
  acrmHeader : String
deriving DecidableEq, Repr

/-- The parts of the response the filters read or write. -/
structure HttpResponse where
  status : Nat
  contentLength : Nat
  headers : List (String × String)
deriving DecidableEq, Repr

/-- State threaded through one dispatched request: the response under
construction, the emitted access-log lines, and a counter of route-target
invocations (used to express "the request never reached a handler"). -/
structure ExecState where
  resp : HttpResponse
  log : List String
  handlerRuns : Nat
deriving DecidableEq, Repr

/-- Go `strings.Split` for a one-character separator, over character
lists: `splitChar c l` is the list of maximal runs of `l` between
occurrences of `c`; it is never empty. -/
def splitChar (c : Char) : List Char → List (List Char)
  | [] => [[]]
  | x :: xs =>
    if x = c then [] :: splitChar c xs
    else
      match splitChar c xs with
      | [] => [[x]]
      | y :: ys => (x :: y) :: ys

/-- The remote-host field of the access-log line:
`strings.Split(req.Request.RemoteAddr, ":")[0]` from
`nCSACommonLogFormatLogger` (`main.go` line 280). -/
def remoteHost (remoteAddr : String) : String :=
  String.mk ((splitChar ':' remoteAddr.data).headD [])

/-- The username field of the access-log line (`main.go` lines 272-277):
"-" unless the request URL carries a userinfo section whose username is
non-empty. -/
def logUsername (urlUsername : Option String) : String :=
  match urlUsername with
  | none => "-"
  | some name => if name = "" then "-" else name

/-- The layout string passed to `time.Now().Format` in
`nCSACommonLogFormatLogger` (`main.go` line 282). -/
def ncsaTimeLayout : String := "02/Jan/2006:15:04:05 -0700"

/-- The access-log line of `nCSACommonLogFormatLogger`, after the format
verbs of `%s - %s [%s] "%s %s %s" %d %d` are filled in; `now` stands for
`time.Now()` already rendered with `ncsaTimeLayout`. -/
def logLine (req : HttpRequest) (resp : HttpResponse) (now : String) : String :=
  remoteHost req.remoteAddr ++ " - " ++ logUsername req.urlUsername ++
    " [" ++ now ++ "] \"" ++ req.method ++ " " ++ req.requestURI ++ " " ++
    req.proto ++ "\" " ++ toString resp.status ++ " " ++
    toString resp.contentLength

/-! ## The filter chain -/

/-- The two filters `main.go` registers on the default container. -/
inductive FilterId where
  | accessLog
  | cors
deriving DecidableEq, Repr

/-- The container filters in registration order: the access-log filter is
registered at `main.go` line 209, the CORS filter at line 228. -/
def containerFilters : List FilterId := [FilterId.accessLog, FilterId.cors]

/-- Models go-restful dispatch order: container filters run in
registration order, each wrapping the rest of the chain, so the head of
`containerFilters` is the outermost interceptor. -/
def outermostFilter : Option FilterId := containerFilters.head?

/-- The last container filter is the innermost interceptor, the one whose
body runs closest to the route target. -/
def innermostFilter : Option FilterId := containerFilters.getLast?

/-- AllowedMethods of the `CrossOriginResourceSharing` value built in
`main.go` line 225. -/
def corsAllowedMethods : List String := ["GET", "POST", "PUT", "DELETE"]

/-- AllowedHeaders of the same value (`main.go` line 224). -/
def corsAllowedHeaders : List String := ["Content-Type", "Accept"]

/-- AllowedDomains is left unset in `main.go`, so it is empty. -/
def corsAllowedDomains : List String := []

/-- Models go-restful `CrossOriginResourceSharing.isOriginAllowed`: an
empty origin is never allowed; with no configured allowed domains every
other origin is allowed. -/
def isOriginAllowed (origin : String) : Bool :=
  if origin = "" then false
  else if corsAllowedDomains.isEmpty then true
  else corsAllowedDomains.contains origin

/-- Models go-restful `doPreflightRequest` with `main.go`'s configuration:
when the requested method is allowed, the preflight CORS headers are added
to the response (the additional request-header check is elided — it only
affects which headers are echoed); the rest of the chain is never invoked
either way. -/
def doPreflight (req : HttpRequest) (st : ExecState) : ExecState :=
  if corsAllowedMethods.contains req.acrmHeader then
    { st with resp := { st.resp with headers := st.resp.headers ++
        [("Access-Control-Allow-Methods", "GET,POST,PUT,DELETE"),
         ("Access-Control-Allow-Origin", req.originHeader)] } }
  else st

/-- Models go-restful `doActualRequest` / `setAllowOriginHeader`: a
non-preflight request with an allowed origin gets the allow-origin header
before the chain continues. -/
def addActualHeaders (req : HttpRequest) (st : ExecState) : ExecState :=
  { st with resp := { st.resp with headers := st.resp.headers ++
      [("Access-Control-Allow-Origin", req.originHeader)] } }

/-- Models go-restful `CrossOriginResourceSharing.Filter`, branch for
branch: requests without an Origin header, or with a disallowed origin,
pass straight through; non-OPTIONS requests get the actual-request headers
and pass through; OPTIONS with an Access-Control-Request-Method header is
answered as a preflight without invoking the rest of the chain; OPTIONS
without it is treated as an actual request. -/
def corsFilter (req : HttpRequest) (inner : ExecState → ExecState)
    (st : ExecState) : ExecState :=
  if req.originHeader = "" then inner st
  else if !isOriginAllowed req.originHeader then inner st
  else if req.method ≠ "OPTIONS" then inner (addActualHeaders req st)
  else if req.acrmHeader ≠ "" then doPreflight req st
  else inner (addActualHeaders req st)

/-- Embeds `nCSACommonLogFormatLogger` (`main.go` lines 270-290): the
filter processes the rest of the chain first, then appends exactly one log
line built from the request and the final response. -/
def accessLogFilter (now : String) (req : HttpRequest)
    (inner : ExecState → ExecState) (st : ExecState) : ExecState :=
  let st1 := inner st
  { st1 with log := st1.log ++ [logLine req st1.resp now] }

/-- Models go-restful `FilterChain.ProcessFilter`: filters run in list
order, each receiving the rest of the chain as its continuation; the
exhausted chain invokes the route target (route selection plus handler). -/
def runChain (now : String) (req : HttpRequest)
    (target : ExecState → ExecState) :
    List FilterId → ExecState → ExecState
  | [], st => target st
  | FilterId.accessLog :: rest, st =>
    accessLogFilter now req (runChain now req target rest) st
  | FilterId.cors :: rest, st =>
    corsFilter req (runChain now req target rest) st

/-- Container dispatch: the registered container filters wrap the route
target of every request. -/
def dispatch (now : String) (req : HttpRequest)
    (target : ExecState → ExecState) (st : ExecState) : ExecState :=
  runChain now req target containerFilters st

/-- A CORS preflight request: method OPTIONS carrying the preflight
headers Origin and Access-Control-Request-Method. -/
def isPreflight (req : HttpRequest) : Prop :=
  req.method = "OPTIONS" ∧ req.originHeader ≠ "" ∧ req.acrmHeader ≠ ""

instance (req : HttpRequest) : Decidable (isPreflight req) := by
  unfold isPreflight; infer_instance

/-! ## The route registry -/

/-- The handler operations the routes of `main.go` bind to. -/
inductive HandlerId where
  | jobGet
  | jobLogs
  | buildGet
  | buildJobs
  | buildLogs
  | projectList
  | projectGet
  | projectBuilds
  | listWithLatestBuild
  | healthz
  | apidocs
deriving DecidableEq, Repr

/-- One registered route: HTTP method, full path pattern (web-service root
path plus route path), and the bound handler operation. -/
structure Route where
  method : String
  path : String
  handler : HandlerId
deriving DecidableEq, Repr

/-- Routes of `jobService.WebService` (root path `/v1/job`). -/
def jobRoutes : List Route :=
  [⟨"GET", "/v1/job/{id}", HandlerId.jobGet⟩,
   ⟨"GET", "/v1/job/{id}/logs", HandlerId.jobLogs⟩]

/-- Routes of `buildService.WebService` (root path `/v1/build`). -/
def buildRoutes : List Route :=
  [⟨"GET", "/v1/build/{id}", HandlerId.buildGet⟩,
   ⟨"GET", "/v1/build/{id}/jobs", HandlerId.buildJobs⟩,
   ⟨"GET", "/v1/build/{id}/logs", HandlerId.buildLogs⟩]

/-- Routes of `projectService.WebService` (root path `/v1`). -/
def projectRoutes : List Route :=
  [⟨"GET", "/v1/projects", HandlerId.projectList⟩,
   ⟨"GET", "/v1/project/{id}", HandlerId.projectGet⟩,
   ⟨"GET", "/v1/project/{id}/builds", HandlerId.projectBuilds⟩,
   ⟨"GET", "/v1/projects-build", HandlerId.listWithLatestBuild⟩]

/-- Route of `healthService.WebService` (root path `/healthz`, route
`/`). -/
def healthRoutes : List Route :=
  [⟨"GET", "/healthz/", HandlerId.healthz⟩]

/-- Route of the OpenAPI service built from `restfulspec.Config` with
APIPath `/apidocs.json` (`main.go` lines 211-215). -/
def apidocsRoutes : List Route :=
  [⟨"GET", "/apidocs.json", HandlerId.apidocs⟩]

/-- All routes registered on the default container, in `Add` order
(`main.go` lines 205-215). -/
def registeredRoutes : List Route :=
  jobRoutes ++ buildRoutes ++ projectRoutes ++ healthRoutes ++ apidocsRoutes

/-- Look up the handler bound to a method + path pair. -/
def routeFor (m p : String) : Option HandlerId :=
  (registeredRoutes.find? (fun r => r.method == m && r.path == p)).map
    Route.handler

/-- go-restful applies the container filters ahead of route selection, so
the same registered filter list wraps the dispatch of every route of the
container. -/
def filtersAppliedTo (_r : Route) : List FilterId := containerFilters

/-! ## Bootstrap defaults -/

/-- `v1.NamespaceDefault` from `k8s.io/api/core/v1`. -/
def NamespaceDefault : String := "default"

/-- `defaultNamespace` (`main.go` lines 237-242): the value of
`BRIGADE_NAMESPACE` when the variable is set, otherwise
`v1.NamespaceDefault`; `env` models `os.LookupEnv`. -/
def defaultNamespace (env : String → Option String) : String :=
  match env "BRIGADE_NAMESPACE" with
  | some ns => ns
  | none => NamespaceDefault

/-- `defaultAPIPort` (`main.go` lines 244-249): the value of
`BRIGADE_API_PORT` when set, otherwise "7745". -/
def defaultAPIPort (env : String → Option String) : String :=
  match env "BRIGADE_API_PORT" with
  | some port => port
  | none => "7745"

/-- Flag resolution for `-namespace` (`main.go` line 32): `flag.StringVar`
registers `defaultNamespace()` as the default and `flag.Parse` overrides
it with the command-line argument when one is given. -/
def resolvedNamespace (env : String → Option String)
    (flagArg : Option String) : String :=
  flagArg.getD (defaultNamespace env)

/-- Flag resolution for `-api-port` (`main.go` line 33). -/
def resolvedAPIPort (env : String → Option String)
    (flagArg : Option String) : String :=
  flagArg.getD (defaultAPIPort env)

/-! ## Order facts about `buildAfter` -/

theorem buildAfter_irrefl (a : Build) : ¬ buildAfter a a := by
  unfold buildAfter
  simp

theorem buildAfter_trans {a b c : Build} :
    buildAfter a b → buildAfter b c → buildAfter a c := by
  unfold buildAfter
  rintro (h1 | ⟨h1e, h1i⟩) (h2 | ⟨h2e, h2i⟩)
  · exact Or.inl (h2.trans h1)
  · exact Or.inl (h2e.trans_lt h1)
  · exact Or.inl (h2.trans_eq h1e)
  · exact Or.inr ⟨h2e.trans h1e, h2i.trans h1i⟩

theorem buildAfter_of_not_of_after {a b c : Build}
    (hab : ¬ buildAfter a b) (hac : buildAfter a c) : buildAfter b c := by
  unfold buildAfter at *
  push_neg at hab
  rcases hac with h | ⟨he, hi⟩
  · exact Or.inl (h.trans_le hab.1)
  · rcases hab.1.lt_or_eq with hlt | heq
    · exact Or.inl (he.trans_lt hlt)
    · exact Or.inr ⟨he.trans heq, hi.trans_le (hab.2 heq.symm)⟩

/-- The fold inside `latestBuild` returns a member of `b :: bs` that no
element of `b :: bs` is strictly after. -/
theorem foldl_latest_spec (b : Build) (bs : List Build) :
    (bs.foldl (fun best x => if buildAfter x best then x else best) b) ∈ b :: bs ∧
    ∀ x ∈ b :: bs,
      ¬ buildAfter x (bs.foldl (fun best x => if buildAfter x best then x else best) b) := by
  induction bs generalizing b with
  | nil =>
    refine ⟨List.mem_singleton.mpr rfl, ?_⟩
    intro x hx
    rw [List.mem_singleton] at hx
    subst hx
    exact buildAfter_irrefl _
  | cons y ys ih =>
    by_cases hy : buildAfter y b
    · have hih := ih y
      rw [List.foldl_cons, if_pos hy]
      refine ⟨List.mem_cons_of_mem _ hih.1, ?_⟩
      intro z hz
      rcases List.mem_cons.mp hz with hzb | hz2
      · subst hzb
        intro hcon
        exact hih.2 y (List.mem_cons_self _ _) (buildAfter_trans hy hcon)
      · exact hih.2 z hz2
    · have hih := ih b
      rw [List.foldl_cons, if_neg hy]
      refine ⟨?_, ?_⟩
      · rcases List.mem_cons.mp hih.1 with h | h
        · exact List.mem_cons.mpr (Or.inl h)
        · exact List.mem_cons_of_mem _ (List.mem_cons_of_mem _ h)
      · intro z hz
        rcases List.mem_cons.mp hz with hzb | hz2
        · subst hzb
          exact hih.2 z (List.mem_cons_self _ _)
        · rcases List.mem_cons.mp hz2 with hzy | hzy
          · subst hzy
            intro hcon
            exact hih.2 b (List.mem_cons_self _ _) (buildAfter_of_not_of_after hy hcon)
          · exact hih.2 z (List.mem_cons_of_mem _ hzy)

theorem latestBuild_spec (bs : List Build) (hne : bs ≠ []) :
    ∃ b, latestBuild bs = some b ∧ b ∈ bs ∧ ∀ x ∈ bs, ¬ buildAfter x b := by
  cases bs with
  | nil => exact absurd rfl hne
  | cons y ys =>
    have h := foldl_latest_spec y ys
    exact ⟨_, rfl, h.1, h.2⟩

/-! ## Helper lemmas on splitting and the filter chain -/

theorem splitChar_ne_nil (c : Char) (l : List Char) : splitChar c l ≠ [] := by
  induction l with
  | nil => simp [splitChar]
  | cons x xs ih =>
    unfold splitChar
    split
    · simp
    · cases h : splitChar c xs with
      | nil => simp
      | cons y ys => simp [h]

theorem splitChar_headD (c : Char) (l : List Char) :
    (splitChar c l).headD [] = l.takeWhile (fun x => x != c) := by
  induction l with
  | nil => simp [splitChar]
  | cons x xs ih =>
    unfold splitChar
    by_cases hx : x = c
    · simp [hx]
    · rw [if_neg hx]
      cases h : splitChar c xs with
      | nil => exact absurd h (splitChar_ne_nil c xs)
      | cons y ys =>
        rw [h] at ih
        simp only [List.headD_cons] at ih
        have hbne : (x != c) = true := by simp [hx]
        simp [List.takeWhile, hbne, ih]

theorem corsFilter_log_preserved (req : HttpRequest)
    (inner : ExecState → ExecState) (st : ExecState)
    (hinner : ∀ s2, (inner s2).log = s2.log) :
    (corsFilter req inner st).log = st.log := by
  unfold corsFilter doPreflight addActualHeaders
  repeat' split
  all_goals simp [hinner]

theorem dispatch_preflight_shape (now : String) (req : HttpRequest)
    (target : ExecState → ExecState) (st : ExecState)
    (hm : req.method = "OPTIONS") (ho : req.originHeader ≠ "")
    (ha : req.acrmHeader ≠ "") :
    dispatch now req target st =
      accessLogFilter now req (doPreflight req) st := by
  have hcors : runChain now req target [FilterId.cors] st =
      doPreflight req st := by
    show corsFilter req (runChain now req target []) st = doPreflight req st
    unfold corsFilter
    rw [if_neg ho, if_neg (by simp [isOriginAllowed, ho, corsAllowedDomains]),
      if_neg (by simp [hm]), if_pos ha]
  show accessLogFilter now req (runChain now req target [FilterId.cors]) st = _
  unfold accessLogFilter
  simp only [hcors]

/-! ## Claim theorems -/

/-- C1: every project returned by `Summarize()`/`ListWithLatestBuild()` is
paired with the build that is maximal by the (creation timestamp,
identifier) tuple — ties on timestamp broken by identifier lexical order —
and a project with no builds still appears, paired with the explicit
no-build marker, never omitted. -/
theorem summarize_pairs_latest (s : Store) (ps : List Project) (p : Project)
    (bs : List Build) (hps : s.listProjects = Except.ok ps) (hp : p ∈ ps)
    (hbs : s.listBuilds p.id = Except.ok bs) :
    ∃ res, Summarize s = Except.ok res ∧
      summarizeProject s p ∈ res ∧ (summarizeProject s p).project = p ∧
      (bs = [] → (summarizeProject s p).lastBuild = BuildLookup.noBuild) ∧
      (bs ≠ [] → ∃ b, (summarizeProject s p).lastBuild = BuildLookup.latest b ∧
        b ∈ bs ∧ ∀ x ∈ bs, ¬ buildAfter x b) := by
  refine ⟨ps.map (summarizeProject s), by unfold Summarize; rw [hps],
    List.mem_map_of_mem _ hp, by simp [summarizeProject, hbs], ?_, ?_⟩
  · intro he
    subst he
    simp [summarizeProject, hbs, buildLookupOf, latestBuild]
  · intro hne
    obtain ⟨b, hb1, hb2, hb3⟩ := latestBuild_spec bs hne
    refine ⟨b, ?_, hb2, hb3⟩
    simp [summarizeProject, hbs, buildLookupOf, hb1]

/-- Concrete store for the witnesses: project p1 has builds b1 and b2
(with b2 later), project p2 has none. -/
def wStore : Store where
  listProjects := Except.ok [⟨"p1", "r1"⟩, ⟨"p2", "r2"⟩]
  listBuilds := fun pid =>
    if pid = "p1" then Except.ok [⟨"b1", "p1", 10⟩, ⟨"b2", "p1", 20⟩]
    else Except.ok []

/-- Witness for summarize_pairs_latest: at `wStore`, project p1 is paired
with the maximal build b2. -/
theorem summarize_pairs_latest_witness :
    ∃ res, Summarize wStore = Except.ok res ∧
      summarizeProject wStore ⟨"p1", "r1"⟩ ∈ res ∧
      (summarizeProject wStore ⟨"p1", "r1"⟩).project = ⟨"p1", "r1"⟩ ∧
      (([⟨"b1", "p1", 10⟩, ⟨"b2", "p1", 20⟩] : List Build) = [] →
        (summarizeProject wStore ⟨"p1", "r1"⟩).lastBuild = BuildLookup.noBuild) ∧
      (([⟨"b1", "p1", 10⟩, ⟨"b2", "p1", 20⟩] : List Build) ≠ [] →
        ∃ b, (summarizeProject wStore ⟨"p1", "r1"⟩).lastBuild =
            BuildLookup.latest b ∧
          b ∈ ([⟨"b1", "p1", 10⟩, ⟨"b2", "p1", 20⟩] : List Build) ∧
          ∀ x ∈ ([⟨"b1", "p1", 10⟩, ⟨"b2", "p1", 20⟩] : List Build),
            ¬ buildAfter x b) :=
  summarize_pairs_latest wStore [⟨"p1", "r1"⟩, ⟨"p2", "r2"⟩] ⟨"p1", "r1"⟩
    [⟨"b1", "p1", 10⟩, ⟨"b2", "p1", 20⟩] rfl (by decide) rfl

/-- C2: `Summarize()` fails iff the initial project listing fails; when
the build listing fails for project P but succeeds for project Q, the
result still contains an entry for every project — P flagged with the
lookup-failure indicator (distinct from the no-build marker), Q correctly
summarized — and the route still answers 200. -/
theorem summarize_error_isolation (s : Store) :
    ((∃ e, Summarize s = Except.error e) ↔
      (∃ e, s.listProjects = Except.error e)) ∧
    (∀ ps P Q eP bsQ, s.listProjects = Except.ok ps → P ∈ ps → Q ∈ ps →
      s.listBuilds P.id = Except.error eP →
      s.listBuilds Q.id = Except.ok bsQ →
      ∃ res, Summarize s = Except.ok res ∧
        listWithLatestBuildStatus s = 200 ∧
        (∃ en, en ∈ res ∧ en.project = P ∧
          en.lastBuild = BuildLookup.lookupFailed eP ∧
          en.lastBuild ≠ BuildLookup.noBuild) ∧
        (∃ en, en ∈ res ∧ en.project = Q ∧
          en.lastBuild = buildLookupOf bsQ)) := by
  constructor
  · constructor
    · rintro ⟨e, he⟩
      cases hps : s.listProjects with
      | error e2 => exact ⟨e2, rfl⟩
      | ok ps =>
        unfold Summarize at he
        rw [hps] at he
        simp at he
    · rintro ⟨e, he⟩
      exact ⟨e, by unfold Summarize; rw [he]⟩
  · intro ps P Q eP bsQ hps hP hQ hPf hQs
    refine ⟨ps.map (summarizeProject s), by unfold Summarize; rw [hps],
      by unfold listWithLatestBuildStatus Summarize; rw [hps], ?_, ?_⟩
    · exact ⟨summarizeProject s P, List.mem_map_of_mem _ hP,
        by simp [summarizeProject, hPf],
        by simp [summarizeProject, hPf],
        by simp [summarizeProject, hPf]⟩
    · exact ⟨summarizeProject s Q, List.mem_map_of_mem _ hQ,
        by simp [summarizeProject, hQs],
        by simp [summarizeProject, hQs]⟩

/-- Concrete store for the C2 witness: the build listing fails for pf and
succeeds for q. -/
def wStore2 : Store where
  listProjects := Except.ok [⟨"pf", "rf"⟩, ⟨"q", "rq"⟩]
  listBuilds := fun pid =>
    if pid = "pf" then Except.error "backend down"
    else Except.ok [⟨"b9", "q", 7⟩]

/-- Witness for summarize_error_isolation at `wStore2`. -/
theorem summarize_error_isolation_witness :
    ∃ res, Summarize wStore2 = Except.ok res ∧
      listWithLatestBuildStatus wStore2 = 200 ∧
      (∃ en, en ∈ res ∧ en.project = ⟨"pf", "rf"⟩ ∧
        en.lastBuild = BuildLookup.lookupFailed "backend down" ∧
        en.lastBuild ≠ BuildLookup.noBuild) ∧
      (∃ en, en ∈ res ∧ en.project = ⟨"q", "rq"⟩ ∧
        en.lastBuild = buildLookupOf [⟨"b9", "q", 7⟩]) :=
  (summarize_error_isolation wStore2).2 [⟨"pf", "rf"⟩, ⟨"q", "rq"⟩]
    ⟨"pf", "rf"⟩ ⟨"q", "rq"⟩ "backend down" [⟨"b9", "q", 7⟩]
    rfl (by decide) (by decide) rfl rfl

/-- C3: for the by-id operations the three outcomes map to distinct status
classes — found to 200, an absent id to 404, and a Resource Reader failure
to a 5xx status, never 404. -/
theorem byid_status_distinct (α : Type) (o : ReadOutcome α) :
    (∀ a, o = ReadOutcome.found a → statusFor o = 200) ∧
    (o = ReadOutcome.notFound → statusFor o = 404) ∧
    (∀ m, o = ReadOutcome.backendError m →
      statusClass (statusFor o) = 5 ∧ statusFor o ≠ 404) ∧
    statusClass 200 = 2 ∧ statusClass 404 = 4 ∧ statusClass 500 = 5 := by
  refine ⟨?_, ?_, ?_, rfl, rfl, rfl⟩
  · rintro a rfl; rfl
  · rintro rfl; rfl
  · rintro m rfl
    refine ⟨?_, ?_⟩ <;> simp [statusFor, statusClass]

/-- Witness for byid_status_distinct: a backend failure on a job read is a
5xx, not 404. -/
theorem byid_status_distinct_witness :
    statusClass (statusFor (ReadOutcome.backendError "timeout" :
      ReadOutcome Build)) = 5 ∧
    statusFor (ReadOutcome.backendError "timeout" : ReadOutcome Build) ≠ 404 :=
  (byid_status_distinct Build (ReadOutcome.backendError "timeout")).2.2.1
    "timeout" rfl

/-- C4 counterexample: in the registered chain the CORS filter is not the
outermost interceptor and the access-log filter is not the innermost — the
registration order of main.go is the reverse of the claimed one. -/
theorem filter_order_cex :
    ¬ (outermostFilter = some FilterId.cors ∧
       innermostFilter = some FilterId.accessLog) := by decide

/-- C4 amended: the access-log filter, registered first, is the outermost
interceptor and the CORS filter, registered second, is the innermost; the
CORS filter can still short-circuit an OPTIONS preflight before the route
target, and even such a short-circuited request is recorded by the
(outer) access-log filter with exactly one line. -/
theorem filter_order_amended :
    outermostFilter = some FilterId.accessLog ∧
    innermostFilter = some FilterId.cors ∧
    (∀ now req target st, isPreflight req →
      (dispatch now req target st).handlerRuns = st.handlerRuns ∧
      (dispatch now req target st).log =
        st.log ++ [logLine req (dispatch now req target st).resp now]) := by
  refine ⟨rfl, rfl, ?_⟩
  rintro now req target st ⟨hm, ho, ha⟩
  rw [dispatch_preflight_shape now req target st hm ho ha]
  unfold accessLogFilter doPreflight
  constructor
  · split <;> rfl
  · split <;> simp

/-- Concrete preflight request for the filter-chain witnesses. -/
def wPre : HttpRequest :=
  ⟨"OPTIONS", "10.0.0.8:40000", none, "/v1/projects", "HTTP/1.1",
    "http://localhost:8080", "GET"⟩

/-- Concrete route target for the filter-chain witnesses: writes a 404
with two body bytes and bumps the invocation counter. -/
def wTarget : ExecState → ExecState := fun s2 =>
  { s2 with
    resp := { s2.resp with status := 404, contentLength := 2 },
    handlerRuns := s2.handlerRuns + 1 }

/-- Witness for filter_order_amended at the concrete preflight request. -/
theorem filter_order_amended_witness :
    (dispatch "t0" wPre wTarget ⟨⟨200, 0, []⟩, [], 0⟩).handlerRuns = 0 ∧
    (dispatch "t0" wPre wTarget ⟨⟨200, 0, []⟩, [], 0⟩).log =
      [] ++ [logLine wPre
        (dispatch "t0" wPre wTarget ⟨⟨200, 0, []⟩, [], 0⟩).resp "t0"] :=
  filter_order_amended.2.2 "t0" wPre wTarget ⟨⟨200, 0, []⟩, [], 0⟩ (by decide)

/-- C5: every completed request produces exactly one access-log line,
appended only after the rest of the chain has run, built from the final
response status and byte count, whatever the route target did; the line
is the NCSA-format line of logLine (host, username or "-", the timestamp
rendered with ncsaTimeLayout, method, request URI, protocol, status,
content length). -/
theorem access_log_exactly_once (now : String) (req : HttpRequest)
    (target : ExecState → ExecState) (st : ExecState)
    (htarget : ∀ s2, (target s2).log = s2.log) :
    (dispatch now req target st).log =
      st.log ++ [logLine req (dispatch now req target st).resp now] := by
  have hcors : (runChain now req target [FilterId.cors] st).log = st.log := by
    show (corsFilter req (runChain now req target []) st).log = st.log
    exact corsFilter_log_preserved req _ st htarget
  have hshape : dispatch now req target st =
      { runChain now req target [FilterId.cors] st with
        log := (runChain now req target [FilterId.cors] st).log ++
          [logLine req
            (runChain now req target [FilterId.cors] st).resp now] } := rfl
  rw [hshape]
  simp [hcors]

/-- Witness for access_log_exactly_once at a concrete 404 request. -/
theorem access_log_exactly_once_witness :
    (dispatch "t1" ⟨"GET", "10.0.0.7:51234", none, "/v1/job/unknown",
        "HTTP/1.1", "", ""⟩ wTarget ⟨⟨200, 0, []⟩, [], 0⟩).log =
      [] ++ [logLine ⟨"GET", "10.0.0.7:51234", none, "/v1/job/unknown",
        "HTTP/1.1", "", ""⟩
        (dispatch "t1" ⟨"GET", "10.0.0.7:51234", none, "/v1/job/unknown",
          "HTTP/1.1", "", ""⟩ wTarget ⟨⟨200, 0, []⟩, [], 0⟩).resp "t1"] :=
  access_log_exactly_once "t1" _ wTarget ⟨⟨200, 0, []⟩, [], 0⟩
    (fun _ => rfl)

/-- C6: both registered filters are applied to every registered route of
the container, the /healthz/ liveness route and the /apidocs.json
metadata route included. -/
theorem filters_on_every_route :
    (∀ r ∈ registeredRoutes,
      FilterId.accessLog ∈ filtersAppliedTo r ∧
      FilterId.cors ∈ filtersAppliedTo r) ∧
    (∃ r ∈ registeredRoutes, r.path = "/healthz/") ∧
    (∃ r ∈ registeredRoutes, r.path = "/apidocs.json") := by decide

/-- Witness for filters_on_every_route at the health route. -/
theorem filters_on_every_route_witness :
    FilterId.accessLog ∈
      filtersAppliedTo ⟨"GET", "/healthz/", HandlerId.healthz⟩ ∧
    FilterId.cors ∈
      filtersAppliedTo ⟨"GET", "/healthz/", HandlerId.healthz⟩ :=
  filters_on_every_route.1 ⟨"GET", "/healthz/", HandlerId.healthz⟩ (by decide)

/-- C7: the route registry statically binds each method + path pair of the
table to the corresponding handler operation. -/
theorem route_table_bindings :
    routeFor "GET" "/v1/job/{id}" = some HandlerId.jobGet ∧
    routeFor "GET" "/v1/job/{id}/logs" = some HandlerId.jobLogs ∧
    routeFor "GET" "/v1/build/{id}" = some HandlerId.buildGet ∧
    routeFor "GET" "/v1/build/{id}/jobs" = some HandlerId.buildJobs ∧
    routeFor "GET" "/v1/build/{id}/logs" = some HandlerId.buildLogs ∧
    routeFor "GET" "/v1/projects" = some HandlerId.projectList ∧
    routeFor "GET" "/v1/project/{id}" = some HandlerId.projectGet ∧
    routeFor "GET" "/v1/project/{id}/builds" = some HandlerId.projectBuilds ∧
    routeFor "GET" "/v1/projects-build" = some HandlerId.listWithLatestBuild ∧
    routeFor "GET" "/healthz/" = some HandlerId.healthz ∧
    routeFor "GET" "/apidocs.json" = some HandlerId.apidocs := by decide

/-- C8: a CORS preflight request (OPTIONS with the Origin and
Access-Control-Request-Method headers) is answered by the CORS filter and
never reaches any resource handler: the dispatch result does not depend on
the route target at all and the target-invocation counter is untouched. -/
theorem preflight_never_reaches_handler (now : String) (req : HttpRequest)
    (t1 t2 : ExecState → ExecState) (st : ExecState) (h : isPreflight req) :
    dispatch now req t1 st = dispatch now req t2 st ∧
    (dispatch now req t1 st).handlerRuns = st.handlerRuns := by
  obtain ⟨hm, ho, ha⟩ := h
  rw [dispatch_preflight_shape now req t1 st hm ho ha,
    dispatch_preflight_shape now req t2 st hm ho ha]
  refine ⟨rfl, ?_⟩
  unfold accessLogFilter doPreflight
  split <;> rfl

/-- Witness for preflight_never_reaches_handler: at the concrete preflight
request the counting target and the identity target give the same
dispatch result. -/
theorem preflight_never_reaches_handler_witness :
    dispatch "t2" wPre wTarget ⟨⟨200, 0, []⟩, [], 0⟩ =
      dispatch "t2" wPre (fun s2 => s2) ⟨⟨200, 0, []⟩, [], 0⟩ ∧
    (dispatch "t2" wPre wTarget ⟨⟨200, 0, []⟩, [], 0⟩).handlerRuns = 0 :=
  preflight_never_reaches_handler "t2" wPre wTarget (fun s2 => s2)
    ⟨⟨200, 0, []⟩, [], 0⟩ (by decide)

/-- C9: the logged remote-host field is exactly the part of RemoteAddr
before its first colon — for an IPv6 RemoteAddr such as "[::1]:8080" that
is the substring "[" — and the username field is "-" whenever the request
URL carries no userinfo or an empty username, and the userinfo username
otherwise. -/
theorem log_host_and_username :
    (∀ s : String, remoteHost s =
      String.mk (s.data.takeWhile (fun c => c != ':'))) ∧
    remoteHost "[::1]:8080" = "[" ∧
    logUsername none = "-" ∧
    logUsername (some "") = "-" ∧
    (∀ u : String, u ≠ "" → logUsername (some u) = u) := by
  refine ⟨?_, by decide, rfl, rfl, ?_⟩
  · intro s
    unfold remoteHost
    rw [splitChar_headD]
  · intro u hu
    simp [logUsername, hu]

/-- Witness for log_host_and_username: a non-empty userinfo username is
logged as is. -/
theorem log_host_and_username_witness :
    logUsername (some "alice") = "alice" :=
  log_host_and_username.2.2.2.2 "alice" (by decide)

/-- C10: at bootstrap the default namespace is BRIGADE_NAMESPACE when set
and "default" otherwise, the default API port is BRIGADE_API_PORT when
set and "7745" otherwise, and the -namespace / -api-port flags override
these defaults. -/
theorem bootstrap_defaults (env : String → Option String) :
    (∀ ns, env "BRIGADE_NAMESPACE" = some ns → defaultNamespace env = ns) ∧
    (env "BRIGADE_NAMESPACE" = none → defaultNamespace env = "default") ∧
    (∀ port, env "BRIGADE_API_PORT" = some port → defaultAPIPort env = port) ∧
    (env "BRIGADE_API_PORT" = none → defaultAPIPort env = "7745") ∧
    (∀ v, resolvedNamespace env (some v) = v) ∧
    resolvedNamespace env none = defaultNamespace env ∧
    (∀ v, resolvedAPIPort env (some v) = v) ∧
    resolvedAPIPort env none = defaultAPIPort env := by
  refine ⟨?_, ?_, ?_, ?_, fun v => rfl, rfl, fun v => rfl, rfl⟩
  · intro ns h
    simp [defaultNamespace, h]
  · intro h
    simp [defaultNamespace, h, NamespaceDefault]
  · intro port h
    simp [defaultAPIPort, h]
  · intro h
    simp [defaultAPIPort, h]

/-- Witness for bootstrap_defaults at a concrete environment: the
namespace variable is set, the port variable is not. -/
theorem bootstrap_defaults_witness :
    defaultNamespace
      (fun k => if k = "BRIGADE_NAMESPACE" then some "brig" else none) =
      "brig" ∧
    defaultAPIPort (fun _ => none) = "7745" :=
  ⟨(bootstrap_defaults
      (fun k => if k = "BRIGADE_NAMESPACE" then some "brig" else none)).1
      "brig" rfl,
    (bootstrap_defaults (fun _ => none)).2.2.2.1 rfl⟩
